import Mathlib

/-!
Shallow embedding of the BLE bridging layer of the ESP32-S3 firmware
(fake ANCS GATT server + MiWear session bootstrap), translated from
`src/miwear/ancs.rs` and `src/miwear.rs`.

Bytes are modelled as `Nat` (values taken from byte slices are < 256);
`Vec<u8>` / `&[u8]` become `List Nat`.  `u16::from_le_bytes` and
`to_le_bytes` are spelled out with explicit `% 2^16` arithmetic.
-/

namespace AncsCodec

/-- `(n as u16).to_le_bytes()`: low byte first. -/
def u16le (n : Nat) : List Nat := [n % 65536 % 256, n % 65536 / 256]

/-- `(n as u32).to_le_bytes()`: low byte first. -/
def u32le (n : Nat) : List Nat :=
  [n % 256, n / 256 % 256, n / 65536 % 256, n / 16777216 % 256]

-- Canned constants from src/miwear/ancs.rs, as ASCII bytes.

/-- "com.astrobox.ghost" (18 bytes) -/
def DUMMY_APP_IDENTIFIER : List Nat :=
  [99, 111, 109, 46, 97, 115, 116, 114, 111, 98, 111, 120, 46, 103, 104, 111, 115, 116]

/-- "AstroBox Phantom" (16 bytes) -/
def DUMMY_APP_DISPLAY_NAME : List Nat :=
  [65, 115, 116, 114, 111, 66, 111, 120, 32, 80, 104, 97, 110, 116, 111, 109]

/-- "Phantom Alert" (13 bytes) -/
def DUMMY_MESSAGE_TITLE : List Nat :=
  [80, 104, 97, 110, 116, 111, 109, 32, 65, 108, 101, 114, 116]

/-- "Faint Signal" (12 bytes) -/
def DUMMY_MESSAGE_SUBTITLE : List Nat :=
  [70, 97, 105, 110, 116, 32, 83, 105, 103, 110, 97, 108]

/-- "Spectral notification with no real content." (43 bytes) -/
def DUMMY_MESSAGE_BODY : List Nat :=
  [83, 112, 101, 99, 116, 114, 97, 108, 32, 110, 111, 116, 105, 102, 105, 99, 97, 116,
   105, 111, 110, 32, 119, 105, 116, 104, 32, 110, 111, 32, 114, 101, 97, 108, 32, 99,
   111, 110, 116, 101, 110, 116, 46]

/-- "19700101T000000" (15 bytes) -/
def DUMMY_DATE : List Nat :=
  [49, 57, 55, 48, 48, 49, 48, 49, 84, 48, 48, 48, 48, 48, 48]

/-- `fn truncate_bytes(data: &[u8], max_len: usize) -> Vec<u8>`:
returns the whole slice when `max_len == 0` or the slice already fits,
otherwise the first `max_len` bytes. -/
def truncate_bytes (data : List Nat) (max_len : Nat) : List Nat :=
  if max_len = 0 ∨ data.length ≤ max_len then data else data.take max_len

/-- `fn attribute_requires_len(attr_id: u8) -> bool`: `matches!(attr_id, 1 | 2 | 3)`. -/
def attribute_requires_len (attr_id : Nat) : Bool :=
  attr_id == 1 || attr_id == 2 || attr_id == 3

/-- `fn dummy_notification_attribute(attr_id: u8, requested_len: usize) -> Vec<u8>`. -/
def dummy_notification_attribute (attr_id : Nat) (requested_len : Nat) : List Nat :=
  match attr_id with
  | 0 => truncate_bytes DUMMY_APP_IDENTIFIER requested_len
  | 1 => truncate_bytes DUMMY_MESSAGE_TITLE requested_len
  | 2 => truncate_bytes DUMMY_MESSAGE_SUBTITLE requested_len
  | 3 => truncate_bytes DUMMY_MESSAGE_BODY requested_len
  | 4 => truncate_bytes [48] requested_len          -- b"0"
  | 5 => truncate_bytes DUMMY_DATE requested_len
  | 6 => truncate_bytes [79, 112, 101, 110] requested_len            -- b"Open"
  | 7 => truncate_bytes [73, 103, 110, 111, 114, 101] requested_len  -- b"Ignore"
  | _ => truncate_bytes [] requested_len

/-- `fn dummy_app_attribute(attr_id: u8, requested_len: usize) -> Vec<u8>`. -/
def dummy_app_attribute (attr_id : Nat) (requested_len : Nat) : List Nat :=
  match attr_id with
  | 0 => truncate_bytes DUMMY_APP_DISPLAY_NAME requested_len
  | _ => truncate_bytes [] requested_len

/-- One TLV record pushed by the response builders:
`attr_id`, 2-byte little-endian length, value bytes. -/
def render_entry (e : Nat × List Nat) : List Nat :=
  [e.1] ++ u16le e.2.length ++ e.2

/-- Concatenation of TLV records. -/
def render_entries : List (Nat × List Nat) → List Nat
  | [] => []
  | e :: es => render_entry e ++ render_entries es

/-- The `while offset < request.len()` loop of
`build_notification_attributes_response`, lines 263-283, modelled on the
suffix of the request past the already-consumed bytes (the loop reads the
request strictly left to right from `offset`).  Returns the bytes the loop
appends to the response together with the final value of the `appended`
flag.  A trailing attribute ID in {1,2,3} with fewer than 2 remaining
length bytes hits the `break`. -/
def attrLoop : List Nat → List Nat × Bool
  | [] => ([], false)
  | attr_id :: rest =>
    if attribute_requires_len attr_id then
      match rest with
      | lo :: hi :: rest2 =>
        let requested_len := lo + 256 * hi
        let value := dummy_notification_attribute attr_id requested_len
        let tail := attrLoop rest2
        (render_entry (attr_id, value) ++ tail.1, true)
      | _ => ([], false)
    else
      let value := dummy_notification_attribute attr_id 0
      let tail := attrLoop rest
      (render_entry (attr_id, value) ++ tail.1, true)

/-- The (attribute id, requested length) pairs the loop of
`build_notification_attributes_response` successfully parses from the
request suffix, in order. -/
def parse_reqs : List Nat → List (Nat × Nat)
  | [] => []
  | attr_id :: rest =>
    if attribute_requires_len attr_id then
      match rest with
      | lo :: hi :: rest2 => (attr_id, lo + 256 * hi) :: parse_reqs rest2
      | _ => []
    else (attr_id, 0) :: parse_reqs rest

/-- `fn build_notification_attributes_response(request: &[u8]) -> Vec<u8>`,
lines 251-293: echo the 5-byte header (or a zero header when the request is
shorter), then the TLV entries of the loop, falling back to one default
attribute (id 0) when the loop appended nothing. -/
def build_notification_attributes_response (request : List Nat) : List Nat :=
  let header := if 5 ≤ request.length then request.take 5 else [0, 0, 0, 0, 0]
  let body := attrLoop (request.drop 5)
  if body.2 then header ++ body.1
  else header ++ render_entry (0, dummy_notification_attribute 0 0)

/-- Characterizes the request suffixes past the 5-byte header on which
the loop of `build_notification_attributes_response` completes no
attribute entry: an empty suffix, or a single variable-length attribute
id with fewer than 2 remaining bytes for its little-endian length. -/
def no_complete_entry : List Nat → Bool
  | [] => true
  | a :: rest => attribute_requires_len a && decide (rest.length < 2)

/-- `fn append_app_attribute(buffer, attr_id, value)`: one TLV record. -/
def append_app_attribute (attr_id : Nat) (value : List Nat) : List Nat :=
  [attr_id] ++ u16le value.length ++ value

/-- `fn extract_app_identifier(request: &[u8]) -> (&[u8], usize)`:
the bytes after the command byte up to the first NUL, and, instead of the
numeric cursor of the source, the request suffix starting at that cursor
(past the NUL when one was found). -/
def extract_app_identifier (request : List Nat) : List Nat × List Nat :=
  match request with
  | [] => ([], [])
  | [_] => ([], [])
  | _ :: rest =>
    let app_id := rest.takeWhile (fun b => b ≠ 0)
    let remaining := rest.dropWhile (fun b => b ≠ 0)
    (app_id, match remaining with
             | [] => []
             | _ :: tl => tl)

/-- The `while cursor < request.len()` loop of
`build_app_attributes_response`, lines 308-322, on the request suffix at
the cursor: every app attribute carries a 2-byte requested length. -/
def appLoop : List Nat → List Nat
  | [] => []
  | attr_id :: rest =>
    match rest with
    | lo :: hi :: rest2 =>
      append_app_attribute attr_id (dummy_app_attribute attr_id (lo + 256 * hi))
        ++ appLoop rest2
    | _ => []

/-- `fn build_app_attributes_response(request: &[u8]) -> Vec<u8>`,
lines 295-329. -/
def build_app_attributes_response (request : List Nat) : List Nat :=
  let r := extract_app_identifier request
  let respHead := [1] ++ r.1 ++ [0]
  if r.2 = [] then respHead ++ append_app_attribute 0 (dummy_app_attribute 0 0)
  else
    let body := appLoop r.2
    if body = [] then respHead ++ append_app_attribute 0 (dummy_app_attribute 0 0)
    else respHead ++ body

/-- `fn build_action_ack_response(request: &[u8]) -> Vec<u8>`, lines 331-341:
command byte 0x02, the request's UID bytes 1..5 (zeros when too short), then
`request.get(5)` defaulted to 0. -/
def build_action_ack_response (request : List Nat) : List Nat :=
  (if 5 ≤ request.length then [2] ++ (request.drop 1).take 4 else [2, 0, 0, 0, 0])
    ++ [request.getD 5 0]

/-- `fn build_control_point_response(request: &[u8]) -> Option<Vec<u8>>`,
lines 241-249: dispatch on the first byte; `None` on an empty request. -/
def build_control_point_response (request : List Nat) : Option (List Nat) :=
  match request with
  | [] => none
  | command :: _ =>
    match command with
    | 0 => some (build_notification_attributes_response request)
    | 1 => some (build_app_attributes_response request)
    | 2 => some (build_action_ack_response request)
    | other => some [other, 0]

/-- `fn build_notification_source_payload(seq: u32) -> [u8; 8]`, lines 231-239. -/
def build_notification_source_payload (seq : Nat) : List Nat :=
  [0, 1, 0, 1] ++ u32le seq

/-- The canned value the spec associates to a variable-length notification
attribute id (title / subtitle / body). -/
def canned_value : Nat → List Nat
  | 1 => DUMMY_MESSAGE_TITLE
  | 2 => DUMMY_MESSAGE_SUBTITLE
  | 3 => DUMMY_MESSAGE_BODY
  | _ => []

end AncsCodec

namespace AncsServer

open AncsCodec

/-- The BLE stack events the fake ANCS server's registered closures react
to, restricted to the Notification Source characteristic and link
security.  `subscribe conn encrypted notifySub`: the `on_subscribe`
closure of lines 53-82 with `desc.encrypted()` and
`sub.contains(NimbleSub::NOTIFY)`; `authComplete conn ok`: the
`on_authentication_complete` closure of lines 167-202 with `ok = true`
for an `Ok(())` status. -/
inductive AncsEvent where
  | subscribe (conn : Nat) (encrypted : Bool) (notifySub : Bool)
  | authComplete (conn : Nat) (ok : Bool)

/-- Observable state around the Notification Source characteristic:
the connections currently subscribed for notify (kept by the NimBLE stack,
queried by the closures through `subscribed_count()`), the characteristic
value, and the log of notifications delivered so far as
(connection handle, payload) pairs, in delivery order. -/
structure AncsState where
  subscribed : List Nat
  value : List Nat
  sent : List (Nat × List Nat)
deriving DecidableEq

/-- One step of the ANCS server's event handling.  The stack registers or
removes the subscription before invoking the `on_subscribe` closure, so a
subscribe event first updates `subscribed`; the closure then returns early
without notifying when the link is not encrypted (lines 61-67), and
otherwise notifies that connection once with the initial payload
(lines 68-75).  An `Ok(())` authentication-complete event notifies the
completing connection once when there is at least one subscriber
(lines 182-193), also storing the payload as the characteristic value;
a failed authentication only logs (lines 195-201). -/
def ancs_step (st : AncsState) (ev : AncsEvent) : AncsState :=
  match ev with
  | .subscribe conn encrypted notifySub =>
    if notifySub then
      let st1 :=
        { st with subscribed :=
            if st.subscribed.contains conn then st.subscribed else conn :: st.subscribed }
      if encrypted then
        { st1 with sent := st1.sent ++ [(conn, build_notification_source_payload 0)] }
      else st1
    else { st with subscribed := st.subscribed.filter (fun c => c != conn) }
  | .authComplete conn ok =>
    if ok then
      if 0 < st.subscribed.length then
        let payload := build_notification_source_payload 0
        { st with value := payload, sent := st.sent ++ [(conn, payload)] }
      else st
    else st

/-- Run of the step relation over an event trace. -/
def ancs_run (st : AncsState) (evs : List AncsEvent) : AncsState :=
  evs.foldl ancs_step st

/-- Number of notifications delivered to connection `c` so far. -/
def sent_to (c : Nat) (st : AncsState) : Nat :=
  st.sent.countP (fun p => p.1 == c)

/-- Events that, per the claim's scenario, may occur for connection `c`
before its encryption completes: any event of another connection, a
subscribe for `c` on a still-unencrypted link, or a failed
authentication for `c`. -/
def safe_for (c : Nat) : AncsEvent → Bool
  | .subscribe conn enc _ => !(conn == c) || !enc
  | .authComplete conn ok => !(conn == c) || !ok

/-- The Data Source characteristic state seen by the Control Point
`on_write` closure: its value and its subscriber count. -/
structure DataSourceState where
  value : List Nat
  subscribed_count : Nat
deriving DecidableEq

/-- A Control Point write event: the received bytes and the connection
descriptor's encrypted flag. -/
structure CPWriteEvent where
  recv_data : List Nat
  encrypted : Bool
deriving DecidableEq

/-- Outcome of the Control Point `on_write` closure: the Data Source
state afterwards, whether `args.reject()` was called, and whether
`target.notify()` was issued.  The closure returns `()`: there is no
error channel back to the stack, so no error component exists here. -/
structure CPWriteResult where
  data_source : DataSourceState
  rejected : Bool
  notified : Bool
deriving DecidableEq

/-- The Control Point `on_write` closure, lines 109-127: reject without
touching the Data Source when the link is not encrypted; otherwise build
the response, store it as the Data Source value and notify when there is
at least one Data Source subscriber. -/
def control_point_on_write (ds : DataSourceState) (ev : CPWriteEvent) : CPWriteResult :=
  if !ev.encrypted then ⟨ds, true, false⟩
  else
    match build_control_point_response ev.recv_data with
    | some response =>
      let ds2 : DataSourceState := { ds with value := response }
      ⟨ds2, false, 0 < ds2.subscribed_count⟩
    | none => ⟨ds, false, false⟩

end AncsServer

namespace MiWear

open AncsCodec

/-- The shared disconnect state of `connect` in src/miwear.rs: the
`disconnect_reason` cell (`Arc<Mutex<Option<_>>>`) and, for the single
bootstrap task parked on `disconnect_notify.notified()`, the number of
times it has been woken.  `tokio::sync::Notify::notify_waiters` wakes the
currently parked waiter; once woken the bootstrap task never parks again,
so later notifications do not wake it a second time. -/
structure SessionWait where
  slot : Option Nat
  wakes : Nat
deriving DecidableEq

/-- The `on_disconnect` closure, lines 62-68: store `Some(reason)` into
the cell unconditionally, then `notify_waiters()`. -/
def on_disconnect (st : SessionWait) (reason : Nat) : SessionWait :=
  { slot := some reason,
    wakes := if st.wakes = 0 then 1 else st.wakes }

/-- The bootstrap's read of the cell after waking, lines 217-220:
`guard.take()` returns the stored reason and empties the cell. -/
def read_reason (st : SessionWait) : Option Nat × SessionWait :=
  (st.slot, { st with slot := none })

/-- Checks whether `needle` occurs as a contiguous substring of `hay`
(Rust `str::contains` with a string pattern). -/
def is_pre : List Char → List Char → Bool
  | [], _ => true
  | _ :: _, [] => false
  | a :: as2, b :: bs => a == b && is_pre as2 bs

/-- Substring occurrence at any position. -/
def contains_sub (hay needle : List Char) : Bool :=
  is_pre needle hay ||
    match hay with
    | [] => false
    | _ :: t => contains_sub t needle

/-- A discovered GATT characteristic as the resolver of `connect` sees
it: `uuid` models the `BleUuid` value compared with `==` (16-bit UUIDs
are identified with their numeric value, other UUIDs with some distinct
code), and `shown` models the `format!("{u:?}")` rendering consumed by
the substring fallback. -/
structure GattChar where
  uuid : Nat
  shown : List Char
deriving DecidableEq

/-- `let uuid_service_flag = u16_uuid(0x0050)` -/
def uuid_service_flag : Nat := 0x0050
/-- `let uuid_recv = u16_uuid(0x005E)` -/
def uuid_recv : Nat := 0x005E
/-- `let uuid_sent = u16_uuid(0x005F)` -/
def uuid_sent : Nat := 0x005F

/-- `fn uuid_contains(u: &BleUuid, needle: &str) -> bool`, lines 15-18:
the UUID's rendering with dashes removed and ASCII-lowercased contains
the lowercased needle. -/
def uuid_contains (u : List Char) (needle : List Char) : Bool :=
  contains_sub ((u.filter (fun ch => ch != '-')).map Char.toLower)
    (needle.map Char.toLower)

/-- The three `Option` slots filled by the resolution loops of `connect`,
lines 80-118. -/
structure Resolved where
  flag : Option GattChar
  recv : Option GattChar
  send : Option GattChar
deriving DecidableEq

/-- One iteration of the first (exact-match) resolution loop,
lines 86-100: the `continue`s make the three checks an else-if chain, in
the order receive, send, flag. -/
def exact_pass_step (acc : Resolved) (c : GattChar) : Resolved :=
  if acc.recv.isNone && (c.uuid == uuid_recv) then { acc with recv := some c }
  else if acc.send.isNone && (c.uuid == uuid_sent) then { acc with send := some c }
  else if acc.flag.isNone && (c.uuid == uuid_service_flag) then { acc with flag := some c }
  else acc

/-- One iteration of the second (substring fallback) loop, lines 103-117. -/
def fallback_step (acc : Resolved) (c : GattChar) : Resolved :=
  if acc.recv.isNone && uuid_contains c.shown ['0', '0', '5', 'e'] then
    { acc with recv := some c }
  else if acc.send.isNone && uuid_contains c.shown ['0', '0', '5', 'f'] then
    { acc with send := some c }
  else if acc.flag.isNone && uuid_contains c.shown ['0', '0', '5', '0'] then
    { acc with flag := some c }
  else acc

/-- The two-pass characteristic resolution of `connect`, lines 80-118:
the exact pass always runs; the fallback pass runs only when some slot is
still `None` afterwards (line 102). -/
def resolve_chars (chars : List GattChar) : Resolved :=
  let r1 := chars.foldl exact_pass_step ⟨none, none, none⟩
  if r1.flag.isNone || r1.recv.isNone || r1.send.isNone then
    chars.foldl fallback_step r1
  else r1

/-- The `ok_or_else` checks of lines 120-122, in source order: the first
still-unresolved role aborts `connect` with an error naming the missing
characteristic. -/
def resolve_result (chars : List GattChar) :
    Except String (GattChar × GattChar × GattChar) :=
  let r := resolve_chars chars
  match r.flag with
  | none => .error "0x0050 not found"
  | some f =>
    match r.recv with
    | none => .error "0x005e not found"
    | some rc =>
      match r.send with
      | none => .error "0x005f not found"
      | some s => .ok (f, rc, s)

/-- `corelib::device::xiaomi::SendError`, as used here: only the `Io`
variant with its message appears in this repository. -/
inductive SendError where
  | Io (msg : String)
deriving DecidableEq

/-- Write mode chosen by the send worker for one dequeued entry. -/
inductive WriteMode where
  | acknowledged
  | unacknowledged
  | noWrite
deriving DecidableEq

/-- Capabilities of the send characteristic (`0x005F`) queried by the
worker: `can_write()` (acknowledged) and `can_write_no_response()`. -/
structure SendChar where
  can_write : Bool
  can_write_no_response : Bool
deriving DecidableEq

/-- The body of the send worker for one dequeued entry, lines 135-151.
`write_result` is the environment's outcome for the BLE write that would
be issued (`none` = success, `some e` = the stack error rendered by
`e.to_string()`).  Returns the write mode used and the `Result` sent on
the entry's oneshot responder. -/
def process_entry (ch : SendChar) (write_result : Option String) :
    WriteMode × Except SendError Unit :=
  if ch.can_write then
    (.acknowledged,
      match write_result with
      | none => .ok ()
      | some e => .error (.Io e))
  else if ch.can_write_no_response then
    (.unacknowledged,
      match write_result with
      | none => .ok ()
      | some e => .error (.Io e))
  else (.noWrite, .error (.Io "0x005F can\x27t write"))

/-- The worker's `while let Some((data, responder)) = rx.recv().await`
loop, lines 134-153, over the queue contents: each entry carries its
payload and the environment's write outcome; the returned list holds, in
order, the (mode, result) pair of each entry — one completion signal per
entry, delivered via `responder.send(result)`. -/
def worker_loop (ch : SendChar) :
    List (List Nat × Option String) → List (WriteMode × Except SendError Unit)
  | [] => []
  | entry :: rest => process_entry ch entry.2 :: worker_loop ch rest

end MiWear


section CodecLemmas

open AncsCodec

-- Shape equations for `attrLoop` and `parse_reqs` (all definitional).

theorem attrLoop_nil : attrLoop [] = ([], false) := rfl

theorem attrLoop_one (a : Nat) : attrLoop [a] =
    (if attribute_requires_len a then ([], false)
     else (render_entry (a, dummy_notification_attribute a 0) ++ (attrLoop []).1, true)) := rfl

theorem attrLoop_two (a x : Nat) : attrLoop [a, x] =
    (if attribute_requires_len a then ([], false)
     else (render_entry (a, dummy_notification_attribute a 0) ++ (attrLoop [x]).1, true)) := rfl

theorem attrLoop_cons3 (a lo hi : Nat) (t : List Nat) : attrLoop (a :: lo :: hi :: t) =
    (if attribute_requires_len a then
      (render_entry (a, dummy_notification_attribute a (lo + 256 * hi)) ++ (attrLoop t).1, true)
     else
      (render_entry (a, dummy_notification_attribute a 0)
        ++ (attrLoop (lo :: hi :: t)).1, true)) := rfl

theorem parse_reqs_nil : parse_reqs [] = [] := rfl

theorem parse_reqs_one (a : Nat) : parse_reqs [a] =
    (if attribute_requires_len a then [] else [(a, 0)]) := rfl

theorem parse_reqs_two (a x : Nat) : parse_reqs [a, x] =
    (if attribute_requires_len a then [] else (a, 0) :: parse_reqs [x]) := rfl

theorem parse_reqs_cons3 (a lo hi : Nat) (t : List Nat) : parse_reqs (a :: lo :: hi :: t) =
    (if attribute_requires_len a then (a, lo + 256 * hi) :: parse_reqs t
     else (a, 0) :: parse_reqs (lo :: hi :: t)) := rfl

theorem truncate_bytes_length (data : List Nat) (L : Nat) :
    (truncate_bytes data L).length =
      if L = 0 then data.length else min L data.length := by
  unfold truncate_bytes
  split_ifs with h h2 h3
  · rfl
  · rcases h with h | h
    · exact absurd h h2
    · omega
  · exact absurd (Or.inl h3) h
  · rw [List.length_take]

theorem attrLoop_of_no_complete (s : List Nat) (h : no_complete_entry s = true) :
    attrLoop s = ([], false) := by
  match s with
  | [] => rfl
  | a :: rest =>
    simp only [no_complete_entry, Bool.and_eq_true, decide_eq_true_eq] at h
    obtain ⟨h1, h2⟩ := h
    match rest with
    | [] => simp [attrLoop_one, h1]
    | [x] => simp [attrLoop_two, h1]
    | x :: y :: t => simp at h2; omega

theorem attrLoop_fst (s : List Nat) :
    (attrLoop s).1 = render_entries
      ((parse_reqs s).map (fun p => (p.1, dummy_notification_attribute p.1 p.2))) := by
  induction s using attrLoop.induct with
  | case1 => rfl
  | case2 attr_id hreq lo hi rest2 ih =>
    simp [attrLoop_cons3, parse_reqs_cons3, hreq, render_entries, ih]
  | case3 attr_id rest hreq hshort =>
    match rest with
    | [] => simp [attrLoop_one, parse_reqs_one, hreq, render_entries]
    | [x] => simp [attrLoop_two, parse_reqs_two, hreq, render_entries]
    | x :: y :: t => exact absurd rfl (hshort x y t)
  | case4 attr_id rest hreq ih =>
    match rest with
    | [] =>
      simp only [Bool.not_eq_true] at hreq
      simp [attrLoop_one, attrLoop_nil, parse_reqs_one, hreq, render_entries]
    | [x] =>
      simp only [Bool.not_eq_true] at hreq
      simp [attrLoop_two, parse_reqs_two, hreq, render_entries, ih]
    | x :: y :: t =>
      simp only [Bool.not_eq_true] at hreq
      simp [attrLoop_cons3, parse_reqs_cons3, hreq, render_entries, ih]

theorem attrLoop_snd (s : List Nat) :
    (attrLoop s).2 = true ↔ parse_reqs s ≠ [] := by
  match s with
  | [] => simp [attrLoop_nil, parse_reqs_nil]
  | [a] =>
    cases hq : attribute_requires_len a <;> simp [attrLoop_one, parse_reqs_one, hq]
  | [a, x] =>
    cases hq : attribute_requires_len a <;> simp [attrLoop_two, parse_reqs_two, hq]
  | a :: lo :: hi :: t =>
    cases hq : attribute_requires_len a <;> simp [attrLoop_cons3, parse_reqs_cons3, hq]

end CodecLemmas

section CodecClaims

open AncsCodec

/-- C2: for every GetNotificationAttributes request whose length is at
least 5 bytes, the first 5 bytes of the response built by
`build_notification_attributes_response` equal the first 5 bytes of the
request (command byte plus 4-byte UID). -/
theorem C2_header_echo (request : List Nat) (h : 5 ≤ request.length) :
    (build_notification_attributes_response request).take 5 = request.take 5 := by
  have hlen : (request.take 5).length = 5 := by rw [List.length_take]; omega
  unfold build_notification_attributes_response
  simp only [h, if_true]
  split <;> exact List.take_left' hlen

theorem C2_header_echo_witness :
    (build_notification_attributes_response [0, 1, 2, 3, 4, 9]).take 5 =
      [0, 1, 2, 3, 4, 9].take 5 :=
  C2_header_echo [0, 1, 2, 3, 4, 9] (by decide)

/-- C4: the concrete GetNotificationAttributes request
`[0x00, 0x01, 0x02, 0x03, 0x04, 0x01, 0x00, 0x00]` (UID 0x04030201,
attribute 1 with requested length 0) yields a response beginning with the
echoed 5-byte header followed by the single TLV entry
`[0x01, len_lo, len_hi] ++ title` carrying the canned title value. -/
theorem C4_end_to_end :
    build_notification_attributes_response [0, 1, 2, 3, 4, 1, 0, 0] =
      [0, 1, 2, 3, 4] ++ [1] ++ u16le DUMMY_MESSAGE_TITLE.length ++ DUMMY_MESSAGE_TITLE ∧
    u16le DUMMY_MESSAGE_TITLE.length = [13, 0] := by
  decide

/-- C5: for every control-point request whose first byte is none of
0x00, 0x01, 0x02, `build_control_point_response` returns exactly the two
bytes `[command, 0x00]`. -/
theorem C5_unknown_command_echo (cmd : Nat) (rest : List Nat)
    (h0 : cmd ≠ 0) (h1 : cmd ≠ 1) (h2 : cmd ≠ 2) :
    build_control_point_response (cmd :: rest) = some [cmd, 0] := by
  obtain ⟨n, rfl⟩ : ∃ n, cmd = n + 3 := ⟨cmd - 3, by omega⟩
  rfl

theorem C5_unknown_command_echo_witness :
    build_control_point_response (5 :: []) = some [5, 0] :=
  C5_unknown_command_echo 5 [] (by decide) (by decide) (by decide)

/-- C1 counterexample: in the request
`[0x00, 0x01, 0x02, 0x03, 0x04, 0x01, 0x00, 0x00]` attribute 1 (title) is
requested with length L = 0, yet the TLV entry in the response carries the
full 13-byte canned title value — not `min(L, canned_value_length) = 0`
bytes as the claim demands. -/
theorem C1_counterexample :
    build_notification_attributes_response [0, 1, 2, 3, 4, 1, 0, 0] =
      [0, 1, 2, 3, 4] ++ render_entry (1, canned_value 1) ∧
    (canned_value 1).length = 13 ∧ min 0 (canned_value 1).length = 0 ∧ (13 : Nat) ≠ 0 := by
  decide

/-- C1 (amended): for every attribute ID in {1,2,3} requested with
length L, the value of the corresponding TLV entry has length
`min(L, canned_value_length)` when `L > 0`, and the full canned value
length when `L = 0`; each parsed request pair (id, L) contributes exactly
the TLV entry `render_entry (id, dummy_notification_attribute id L)` to
the response, in request order. -/
theorem C1_truncation_amended :
    (∀ attrId L, (attrId = 1 ∨ attrId = 2 ∨ attrId = 3) →
      (dummy_notification_attribute attrId L).length =
        if L = 0 then (canned_value attrId).length
        else min L (canned_value attrId).length) ∧
    (∀ request, parse_reqs (request.drop 5) ≠ [] →
      build_notification_attributes_response request =
        (if 5 ≤ request.length then request.take 5 else [0, 0, 0, 0, 0]) ++
          render_entries ((parse_reqs (request.drop 5)).map
            (fun p => (p.1, dummy_notification_attribute p.1 p.2)))) := by
  constructor
  · rintro attrId L (rfl | rfl | rfl) <;>
      simp [dummy_notification_attribute, canned_value, truncate_bytes_length]
  · intro request hne
    have h2 : (attrLoop (request.drop 5)).2 = true := (attrLoop_snd _).2 hne
    unfold build_notification_attributes_response
    simp only [h2, if_true, attrLoop_fst]

theorem C1_truncation_amended_witness :
    (dummy_notification_attribute 1 5).length =
      if 5 = 0 then (canned_value 1).length else min 5 (canned_value 1).length :=
  C1_truncation_amended.1 1 5 (Or.inl rfl)

/-- C3: a GetNotificationAttributes request with no complete trailing
attribute entry after the 5-byte header yields a response whose body is
exactly one TLV entry (the default attribute 0), and every response
contains at least one TLV entry. -/
theorem C3_default_attribute :
    (∀ request, no_complete_entry (request.drop 5) = true →
      build_notification_attributes_response request =
        (if 5 ≤ request.length then request.take 5 else [0, 0, 0, 0, 0]) ++
          render_entries [(0, dummy_notification_attribute 0 0)]) ∧
    (∀ request, ∃ es, es ≠ [] ∧
      build_notification_attributes_response request =
        (if 5 ≤ request.length then request.take 5 else [0, 0, 0, 0, 0]) ++
          render_entries es) := by
  constructor
  · intro request h
    unfold build_notification_attributes_response
    rw [attrLoop_of_no_complete _ h]
    simp [render_entries]
  · intro request
    by_cases h2 : (attrLoop (request.drop 5)).2 = true
    · refine ⟨(parse_reqs (request.drop 5)).map
        (fun p => (p.1, dummy_notification_attribute p.1 p.2)), ?_, ?_⟩
      · have hne := (attrLoop_snd (request.drop 5)).1 h2
        simpa using hne
      · unfold build_notification_attributes_response
        simp only [h2, if_true, attrLoop_fst]
    · refine ⟨[(0, dummy_notification_attribute 0 0)], by simp, ?_⟩
      have h2f : (attrLoop (request.drop 5)).2 = false := by
        cases hb : (attrLoop (request.drop 5)).2
        · rfl
        · exact absurd hb h2
      unfold build_notification_attributes_response
      simp [h2f, render_entries]

theorem C3_default_attribute_witness :
    build_notification_attributes_response [0, 1, 2, 3, 4] =
      (if 5 ≤ ([0, 1, 2, 3, 4] : List Nat).length then ([0, 1, 2, 3, 4] : List Nat).take 5
       else [0, 0, 0, 0, 0]) ++
        render_entries [(0, dummy_notification_attribute 0 0)] :=
  C3_default_attribute.1 [0, 1, 2, 3, 4] (by decide)

end CodecClaims

section ServerClaims

open AncsCodec AncsServer MiWear

theorem ancs_step_sent_to_safe (c : Nat) (st : AncsState) (ev : AncsEvent)
    (h : safe_for c ev = true) :
    sent_to c (ancs_step st ev) = sent_to c st := by
  cases ev with
  | subscribe conn enc ns =>
    cases ns with
    | false => simp [ancs_step, sent_to]
    | true =>
      cases enc with
      | false => simp [ancs_step, sent_to]
      | true =>
        have hc : (conn == c) = false := by
          simp [safe_for] at h
          simpa using h
        simp [ancs_step, sent_to, List.countP_append, hc]
  | authComplete conn ok =>
    cases ok with
    | false => simp [ancs_step, sent_to]
    | true =>
      have hc : (conn == c) = false := by
        simp [safe_for] at h
        simpa using h
      by_cases hs : 0 < st.subscribed.length
      · simp [ancs_step, sent_to, hs, List.countP_append, hc]
      · simp [ancs_step, sent_to, hs]

/-- C6: a subscribe event on Notification Source on an unencrypted link
delivers nothing; along any trace of events that are safe for a
connection `c` (no encrypted subscribe and no successful
authentication-complete for `c`), the number of notifications delivered
to `c` never grows; and an `Ok(())` authentication-complete event for a
subscribed connection delivers exactly one notification to it. -/
theorem C6_subscription_gating :
    (∀ st conn, (ancs_step st (.subscribe conn false true)).sent = st.sent) ∧
    (∀ c st evs, evs.all (safe_for c) = true →
      sent_to c (ancs_run st evs) = sent_to c st) ∧
    (∀ st conn, st.subscribed.contains conn = true →
      sent_to conn (ancs_step st (.authComplete conn true)) = sent_to conn st + 1) := by
  refine ⟨?_, ?_, ?_⟩
  · intro st conn
    simp [ancs_step]
  · intro c st evs h
    induction evs generalizing st with
    | nil => rfl
    | cons ev rest ih =>
      simp only [List.all_cons, Bool.and_eq_true] at h
      have hrun : ancs_run st (ev :: rest) = ancs_run (ancs_step st ev) rest := rfl
      rw [hrun, ih _ h.2, ancs_step_sent_to_safe c st ev h.1]
  · intro st conn h
    have hlen : 0 < st.subscribed.length := by
      cases hsub : st.subscribed with
      | nil => rw [hsub] at h; simp [List.contains] at h
      | cons a t => simp [hsub]
    simp [ancs_step, sent_to, hlen, List.countP_append]

theorem C6_subscription_gating_witness :
    (ancs_step ⟨[], [], []⟩ (.subscribe 7 false true)).sent = [] ∧
    sent_to 7 (ancs_run ⟨[], [], []⟩
      [.subscribe 7 false true, .authComplete 7 false, .authComplete 9 true]) =
      sent_to 7 (⟨[], [], []⟩ : AncsState) ∧
    sent_to 7 (ancs_step ⟨[7], [], []⟩ (.authComplete 7 true)) =
      sent_to 7 (⟨[7], [], []⟩ : AncsState) + 1 :=
  ⟨C6_subscription_gating.1 ⟨[], [], []⟩ 7,
   C6_subscription_gating.2.1 7 ⟨[], [], []⟩ _ (by decide),
   C6_subscription_gating.2.2 ⟨[7], [], []⟩ 7 (by decide)⟩

/-- C7: a Control Point write event on a connection whose descriptor has
`encrypted == false` is rejected: the handler calls `args.reject()`,
leaves the Data Source state (value and all) unchanged, and emits no
Data Source notification.  The handler returns `()` in the source, so no
error can reach the caller: `control_point_on_write` is total and its
result carries no error component. -/
theorem C7_unencrypted_cp_write (ds : DataSourceState) (ev : CPWriteEvent)
    (h : ev.encrypted = false) :
    control_point_on_write ds ev = ⟨ds, true, false⟩ := by
  simp [control_point_on_write, h]

theorem C7_unencrypted_cp_write_witness :
    control_point_on_write ⟨[1, 2], 3⟩ ⟨[0, 9, 9, 9, 9], false⟩ =
      ⟨⟨[1, 2], 3⟩, true, false⟩ :=
  C7_unencrypted_cp_write ⟨[1, 2], 3⟩ ⟨[0, 9, 9, 9, 9], false⟩ rfl

/-- C8 counterexample: two disconnect events with reasons 8 then 19,
both before the waiting task reads the cell.  The waiting task wakes
once, but the cell holds `Some(19)` — the reason of the SECOND event —
because `on_disconnect` overwrites the slot unconditionally; the claim
says the first reason (8) is retained. -/
theorem C8_counterexample :
    (read_reason (on_disconnect (on_disconnect ⟨none, 0⟩ 8) 19)).1 = some 19 ∧
    (on_disconnect (on_disconnect ⟨none, 0⟩ 8) 19).wakes = 1 ∧
    (19 : Nat) ≠ 8 := by
  decide

/-- C8 (amended): when two disconnect events fire before the waiting
bootstrap task reads the shared cell, the task wakes exactly once, and
the reason it observes is the one carried by the LAST disconnect event
(the cell retains the most recent reason, each event overwriting the
previous one). -/
theorem C8_last_reason_amended (st : SessionWait) (r1 r2 : Nat) (h : st.wakes = 0) :
    (on_disconnect (on_disconnect st r1) r2).wakes = 1 ∧
    (read_reason (on_disconnect (on_disconnect st r1) r2)).1 = some r2 := by
  simp [on_disconnect, read_reason, h]

theorem C8_last_reason_amended_witness :
    (on_disconnect (on_disconnect ⟨none, 0⟩ 8) 19).wakes = 1 ∧
    (read_reason (on_disconnect (on_disconnect ⟨none, 0⟩ 8) 19)).1 = some 19 :=
  C8_last_reason_amended ⟨none, 0⟩ 8 19 rfl

end ServerClaims

section ResolverLemmas

open MiWear

theorem exact_pass_step_recv (init : Resolved) (c : GattChar)
    (hc : c.uuid ≠ uuid_recv) :
    (exact_pass_step init c).recv = init.recv := by
  unfold exact_pass_step
  split_ifs <;> simp_all

theorem exact_fold_recv_none (chars : List GattChar) (init : Resolved)
    (h0 : init.recv = none) (h : ∀ c ∈ chars, c.uuid ≠ uuid_recv) :
    (chars.foldl exact_pass_step init).recv = none := by
  induction chars generalizing init with
  | nil => exact h0
  | cons c rest ih =>
    rw [List.foldl_cons]
    refine ih _ ?_ (fun d hd => h d (List.mem_cons_of_mem _ hd))
    rw [exact_pass_step_recv init c (h c (List.mem_cons_self _ _))]
    exact h0

theorem fallback_step_keep_recv (init : Resolved) (c d : GattChar)
    (h : init.recv = some d) : (fallback_step init c).recv = some d := by
  unfold fallback_step
  simp only [h, Option.isNone_some, Bool.false_and, Bool.false_eq_true, if_false]
  split_ifs <;> simp [h]

theorem fallback_fold_keep_recv (chars : List GattChar) (init : Resolved) (d : GattChar)
    (h : init.recv = some d) : (chars.foldl fallback_step init).recv = some d := by
  induction chars generalizing init with
  | nil => exact h
  | cons c rest ih => exact ih _ (fallback_step_keep_recv init c d h)

theorem fallback_step_keep_send (init : Resolved) (c d : GattChar)
    (h : init.send = some d) : (fallback_step init c).send = some d := by
  unfold fallback_step
  split_ifs <;> simp_all

theorem fallback_fold_keep_send (chars : List GattChar) (init : Resolved) (d : GattChar)
    (h : init.send = some d) : (chars.foldl fallback_step init).send = some d := by
  induction chars generalizing init with
  | nil => exact h
  | cons c rest ih => exact ih _ (fallback_step_keep_send init c d h)

theorem fallback_step_keep_flag (init : Resolved) (c d : GattChar)
    (h : init.flag = some d) : (fallback_step init c).flag = some d := by
  unfold fallback_step
  split_ifs <;> simp_all

theorem fallback_fold_keep_flag (chars : List GattChar) (init : Resolved) (d : GattChar)
    (h : init.flag = some d) : (chars.foldl fallback_step init).flag = some d := by
  induction chars generalizing init with
  | nil => exact h
  | cons c rest ih => exact ih _ (fallback_step_keep_flag init c d h)

theorem fallback_step_recv_nomatch (init : Resolved) (c : GattChar)
    (h0 : init.recv = none)
    (hm : uuid_contains c.shown ['0', '0', '5', 'e'] = false) :
    (fallback_step init c).recv = none := by
  unfold fallback_step
  simp only [hm, Bool.and_false, Bool.false_eq_true, if_false]
  split_ifs <;> simp [h0]

theorem fallback_fold_recv_find (chars : List GattChar) (init : Resolved)
    (h0 : init.recv = none) :
    (chars.foldl fallback_step init).recv =
      chars.find? (fun c => uuid_contains c.shown ['0', '0', '5', 'e']) := by
  induction chars generalizing init with
  | nil => simpa using h0
  | cons c rest ih =>
    rw [List.foldl_cons]
    cases hm : uuid_contains c.shown ['0', '0', '5', 'e'] with
    | true =>
      have hstep : (fallback_step init c).recv = some c := by
        unfold fallback_step
        simp [h0, hm]
      rw [fallback_fold_keep_recv rest _ c hstep]
      simp [List.find?, hm]
    | false =>
      rw [ih _ (fallback_step_recv_nomatch init c h0 hm)]
      simp [List.find?, hm]

end ResolverLemmas

section ResolverClaims

open MiWear

/-- C9: the resolver assigns roles by exact 16-bit UUID equality in the
first pass; the substring pass runs only when some role is still
unassigned after it and never overwrites an assignment it inherits; when
no characteristic carries the exact receive UUID 0x005E, the receive role
resolves to the first characteristic whose rendered UUID (dashes removed,
ASCII-lowercased) contains "005e"; and when any role is still unresolved
after both passes, `connect` fails with an error naming the missing
characteristic. -/
theorem C9_two_pass_resolution :
    (∀ chars : List GattChar,
      (chars.foldl exact_pass_step ⟨none, none, none⟩).flag.isSome = true →
      (chars.foldl exact_pass_step ⟨none, none, none⟩).recv.isSome = true →
      (chars.foldl exact_pass_step ⟨none, none, none⟩).send.isSome = true →
      resolve_chars chars = chars.foldl exact_pass_step ⟨none, none, none⟩) ∧
    (∀ (chars : List GattChar) (init : Resolved) (d : GattChar),
      init.recv = some d → (chars.foldl fallback_step init).recv = some d) ∧
    (∀ (chars : List GattChar) (init : Resolved) (d : GattChar),
      init.send = some d → (chars.foldl fallback_step init).send = some d) ∧
    (∀ (chars : List GattChar) (init : Resolved) (d : GattChar),
      init.flag = some d → (chars.foldl fallback_step init).flag = some d) ∧
    (∀ chars : List GattChar, (∀ c ∈ chars, c.uuid ≠ uuid_recv) →
      (resolve_chars chars).recv =
        chars.find? (fun c => uuid_contains c.shown ['0', '0', '5', 'e'])) ∧
    (∀ chars : List GattChar,
      ((resolve_chars chars).flag = none →
        resolve_result chars = .error "0x0050 not found") ∧
      ((resolve_chars chars).flag.isSome = true → (resolve_chars chars).recv = none →
        resolve_result chars = .error "0x005e not found") ∧
      ((resolve_chars chars).flag.isSome = true → (resolve_chars chars).recv.isSome = true →
        (resolve_chars chars).send = none →
        resolve_result chars = .error "0x005f not found")) := by
  refine ⟨?_, fallback_fold_keep_recv, fallback_fold_keep_send, fallback_fold_keep_flag,
    ?_, ?_⟩
  · intro chars h1 h2 h3
    obtain ⟨f, hf⟩ := Option.isSome_iff_exists.1 h1
    obtain ⟨r, hr⟩ := Option.isSome_iff_exists.1 h2
    obtain ⟨s, hs⟩ := Option.isSome_iff_exists.1 h3
    unfold resolve_chars
    simp [hf, hr, hs]
  · intro chars h
    have h0 : (chars.foldl exact_pass_step ⟨none, none, none⟩).recv = none :=
      exact_fold_recv_none chars ⟨none, none, none⟩ rfl h
    unfold resolve_chars
    simp only [h0, Option.isNone_none, Bool.or_true, Bool.true_or, if_true]
    exact fallback_fold_recv_find chars _ h0
  · intro chars
    refine ⟨?_, ?_, ?_⟩
    · intro hf
      unfold resolve_result
      simp [hf]
    · intro hf hr
      obtain ⟨f, hfv⟩ := Option.isSome_iff_exists.1 hf
      unfold resolve_result
      simp [hfv, hr]
    · intro hf hr hs
      obtain ⟨f, hfv⟩ := Option.isSome_iff_exists.1 hf
      obtain ⟨r, hrv⟩ := Option.isSome_iff_exists.1 hr
      unfold resolve_result
      simp [hfv, hrv, hs]

theorem C9_two_pass_resolution_witness :
    (resolve_chars [⟨43981, ['x', '0', '0', '5', 'E', 'y']⟩]).recv =
      List.find? (fun c => uuid_contains c.shown ['0', '0', '5', 'e'])
        [(⟨43981, ['x', '0', '0', '5', 'E', 'y']⟩ : GattChar)] ∧
    resolve_result [] = .error "0x0050 not found" :=
  ⟨C9_two_pass_resolution.2.2.2.2.1 [⟨43981, ['x', '0', '0', '5', 'E', 'y']⟩] (by decide),
   (C9_two_pass_resolution.2.2.2.2.2 []).1 (by decide)⟩

end ResolverClaims

section SendClaims

open MiWear

/-- C10: for every dequeued entry the send worker issues an acknowledged
write when the characteristic supports it, otherwise an unacknowledged
write when write-without-response is supported, and otherwise completes
the entry with `SendError::Io`; a failing write also surfaces as
`SendError::Io` with the stack's message and a successful one as `Ok`;
exactly one completion is produced per dequeued entry, in queue order,
and the worker serves every entry of the queue regardless of earlier
entries' outcomes. -/
theorem C10_send_serializer :
    (∀ (ch : SendChar) (wr : Option String),
      (ch.can_write = true → (process_entry ch wr).1 = WriteMode.acknowledged) ∧
      (ch.can_write = false → ch.can_write_no_response = true →
        (process_entry ch wr).1 = WriteMode.unacknowledged) ∧
      (ch.can_write = false → ch.can_write_no_response = false →
        process_entry ch wr =
          (WriteMode.noWrite, .error (.Io "0x005F can\x27t write"))) ∧
      (∀ e, wr = some e → (ch.can_write = true ∨ ch.can_write_no_response = true) →
        (process_entry ch wr).2 = .error (.Io e)) ∧
      (wr = none → (ch.can_write = true ∨ ch.can_write_no_response = true) →
        (process_entry ch wr).2 = .ok ())) ∧
    (∀ (ch : SendChar) (queue : List (List Nat × Option String)),
      (worker_loop ch queue).length = queue.length) ∧
    (∀ (ch : SendChar) (q1 q2 : List (List Nat × Option String)),
      worker_loop ch (q1 ++ q2) = worker_loop ch q1 ++ worker_loop ch q2) := by
  refine ⟨?_, ?_, ?_⟩
  · intro ch wr
    refine ⟨?_, ?_, ?_, ?_, ?_⟩
    · intro h
      simp [process_entry, h]
    · intro h h2
      simp [process_entry, h, h2]
    · intro h h2
      simp [process_entry, h, h2]
    · rintro e rfl (h | h)
      · simp [process_entry, h]
      · by_cases hw : ch.can_write = true
        · simp [process_entry, hw]
        · simp [process_entry, hw, h]
    · rintro rfl (h | h)
      · simp [process_entry, h]
      · by_cases hw : ch.can_write = true
        · simp [process_entry, hw]
        · simp [process_entry, hw, h]
  · intro ch queue
    induction queue with
    | nil => rfl
    | cons e rest ih => simp [worker_loop, ih]
  · intro ch q1 q2
    induction q1 with
    | nil => rfl
    | cons e rest ih => simp [worker_loop, ih]

theorem C10_send_serializer_witness :
    process_entry ⟨false, false⟩ none =
      (WriteMode.noWrite, .error (.Io "0x005F can\x27t write")) ∧
    (worker_loop ⟨true, false⟩ [([1], none), ([2], some "err"), ([3], none)]).length =
      ([([1], none), ([2], some "err"), ([3], none)] :
        List (List Nat × Option String)).length ∧
    (process_entry ⟨true, false⟩ (some "err")).2 = .error (.Io "err") :=
  ⟨(C10_send_serializer.1 ⟨false, false⟩ none).2.2.1 rfl rfl,
   C10_send_serializer.2.1 ⟨true, false⟩ [([1], none), ([2], some "err"), ([3], none)],
   (C10_send_serializer.1 ⟨true, false⟩ (some "err")).2.2.2.1 "err" rfl (Or.inl rfl)⟩

end SendClaims
